import Mathlib

/-!
Shallow embedding of the cost-aware model-routing and telemetry engine of
the vextrus-erp repository (src/hooks-backup-code): complexity_scorer.py,
model_selector.py, cost_tracker.py, plus the spec-described performance
tracker whose implementation file (agent_metrics.py) is not part of the
sources.  Python strings are modelled as lists of characters (`Str`);
Python ints as `Int`; Python floats (every cost here is a sum/quotient of
decimal constants) as `ℚ`.
-/

/-- A Python string, modelled as its list of characters. -/
abbrev Str := List Char

/-- Helper turning a Lean string literal into a `Str`. -/
def str (s : String) : Str := s.data

/-- ASCII lower-casing of one character (Python `str.lower`, restricted to
the ASCII alphabet, the only one the keyword/pattern tables use). -/
def lowerChar (c : Char) : Char :=
  if 'A' ≤ c ∧ c ≤ 'Z' then Char.ofNat (c.toNat + 32) else c

/-- Python `s.lower()`. -/
def lowerStr (s : Str) : Str := s.map lowerChar

/-- Prefix test: `isPrefOf needle s` is true when `needle` is a prefix of `s`. -/
def isPrefOf : Str → Str → Bool
  | [], _ => true
  | _ :: _, [] => false
  | a :: as, b :: bs => a == b && isPrefOf as bs

/-- Python `needle in hay` — substring containment; also models `re.search`
of a pattern that is a plain literal. -/
def containsSub (needle : Str) : Str → Bool
  | [] => isPrefOf needle []
  | c :: rest => isPrefOf needle (c :: rest) || containsSub needle rest

/-- Python `s.endswith(t)`; also models `re.search` of a `$`-anchored
escaped literal such as `\.graphql$`. -/
def endsWithStr (t s : Str) : Bool := isPrefOf t.reverse s.reverse

/-- Python regex `\s` over ASCII: space, tab, newline, carriage return,
vertical tab, form feed. -/
def isPySpace (c : Char) : Bool :=
  c == ' ' || c == '\t' || c == '\n' || c == '\r' ||
    c == Char.ofNat 11 || c == Char.ofNat 12

/-- Drop the leading whitespace run. -/
def dropSpaces : Str → Str
  | [] => []
  | c :: r => if isPySpace c then dropSpaces r else c :: r

/-- Matches the regex `w1\s+w2` at the start of `s`: `w1`, then at least one
whitespace character, then (after the whitespace run) `w2`. -/
def matchesSeqAt (w1 w2 s : Str) : Bool :=
  isPrefOf w1 s &&
    (let rest := s.drop w1.length
     (match rest with
      | c :: _ => isPySpace c
      | [] => false) &&
       isPrefOf w2 (dropSpaces rest))

/-- Search for `w1\s+w2` anywhere in `s`, as `re.search` does (the patterns' first words are
nonempty, so a match at the empty tail is impossible). -/
def searchSeq (w1 w2 : Str) : Str → Bool
  | [] => false
  | c :: r => matchesSeqAt w1 w2 (c :: r) || searchSeq w1 w2 r

/-! ## complexity_scorer.py -/

/-- complexity_scorer.HIGH_RISK_KEYWORDS. -/
def HIGH_RISK_KEYWORDS : List Str :=
  [str ("payment"), str ("security"), str ("auth"), str ("authentication"),
   str ("authorization"), str ("invoice"), str ("transaction"), str ("finance"),
   str ("migration"), str ("event sourcing"), str ("graphql"), str ("federation"),
   str ("encryption"), str ("jwt"), str ("token")]

/-- One entry of HIGH_RISK_FILE_PATTERNS.  Every pattern in the source is
either a plain literal (searched as a substring — `schema\.` is the literal
"schema.") or the `$`-anchored literal `\.graphql$` (a suffix test). -/
inductive FilePat
  | sub (w : Str)
  | ending (w : Str)

/-- Evaluate `re.search(pattern, file_lower)` for one file pattern. -/
def filePatMatches (fl : Str) : FilePat → Bool
  | .sub w => containsSub w fl
  | .ending w => endsWithStr w fl

/-- complexity_scorer.HIGH_RISK_FILE_PATTERNS, in source order. -/
def HIGH_RISK_FILE_PATTERNS : List FilePat :=
  [.sub (str ("auth")), .sub (str ("security")), .sub (str ("payment")),
   .sub (str ("invoice")), .sub (str ("transaction")), .sub (str ("migration")),
   .ending (str (".graphql")), .sub (str ("schema.")), .sub (str ("database")),
   .sub (str ("config")), .sub (str ("env"))]

/-- One entry of CRITICAL_SQL_PATTERNS: either `w1\s+w2` or a plain
literal.  Matching is case-insensitive (`re.IGNORECASE`), modelled by
storing the words lower-cased and lowering the diff before searching. -/
inductive SqlPat
  | seq (w1 w2 : Str)
  | lit (w : Str)

/-- Evaluate `re.search(pattern, git_diff, re.IGNORECASE)` for one SQL pattern,
given the lower-cased diff. -/
def sqlPatMatches (dl : Str) : SqlPat → Bool
  | .seq w1 w2 => searchSeq w1 w2 dl
  | .lit w => containsSub w dl

/-- complexity_scorer.CRITICAL_SQL_PATTERNS (words lower-cased). -/
def CRITICAL_SQL_PATTERNS : List SqlPat :=
  [.seq (str ("drop")) (str ("table")), .seq (str ("alter")) (str ("table")),
   .seq (str ("delete")) (str ("from")), .lit (str ("truncate")),
   .seq (str ("drop")) (str ("database")), .lit (str ("executeraw")),
   .lit (str ("rawquery")), .lit (str ("unsaferaw"))]

/-- File-quantity tier of analyze_file_changes. -/
def fileQuantityScore (n : Nat) : Int :=
  if n > 20 then 30 else if n > 10 then 20 else if n > 5 then 10 else 0

/-- Per-file contribution of the loop body of analyze_file_changes: +5 on
the first matching high-risk pattern (the inner loop `break`s after one hit,
so at most +5 per file), then +8 for a `.graphql` file, else +10 for a path
containing "migration", else −2 for `.md`/`.txt`/`.json` files.  The
suffix tests use the original path, the substring tests the lower-cased
path, exactly as in the source.  (The source's `details` dict only reports
what was matched and never feeds the score; it is omitted.) -/
def fileRiskScore (file_path : Str) : Int :=
  let file_lower := lowerStr file_path
  (if HIGH_RISK_FILE_PATTERNS.any (filePatMatches file_lower) then 5 else 0) +
  (if endsWithStr (str (".graphql")) file_path then 8
   else if containsSub (str ("migration")) file_lower then 10
   else if endsWithStr (str (".md")) file_path || endsWithStr (str (".txt")) file_path
        || endsWithStr (str (".json")) file_path then -2
   else 0)

/-- complexity_scorer.analyze_file_changes, score component: the quantity
tier plus every file's contribution, capped above by `min(score, 40)` — the
source has no lower clamp. -/
def analyze_file_changes (files_changed : List Str) : Int :=
  min (fileQuantityScore files_changed.length
        + (files_changed.map fileRiskScore).sum) 40

/-- Lines-changed tier of analyze_code_changes. -/
def linesTier (lines_changed : Int) : Int :=
  if lines_changed > 1000 then 20 else if lines_changed > 500 then 15
  else if lines_changed > 200 then 10 else if lines_changed > 100 then 5 else 0

/-- Functions-added tier of analyze_code_changes. -/
def functionsTier (functions_added : Int) : Int :=
  if functions_added > 20 then 10 else if functions_added > 10 then 7
  else if functions_added > 5 then 5 else 0

/-- Score of +15 per CRITICAL_SQL_PATTERNS entry found in the diff.  Python's
`if git_diff:` skips the scan for `None` and for the empty string alike. -/
def sqlPatternScore (git_diff : Option Str) : Int :=
  match git_diff with
  | none => 0
  | some d =>
      if d.isEmpty then 0
      else 15 * ((CRITICAL_SQL_PATTERNS.filter (sqlPatMatches (lowerStr d))).length : Int)

/-- complexity_scorer.analyze_code_changes, score component. -/
def analyze_code_changes (git_diff : Option Str)
    (lines_changed functions_added : Int) : Int :=
  min (linesTier lines_changed + functionsTier functions_added
        + sqlPatternScore git_diff) 30

/-- Keyword group of the `finance` domain category. -/
def financeKeywords : List Str :=
  [str ("payment"), str ("invoice"), str ("transaction"), str ("finance")]

/-- Keyword group of the `security` domain category. -/
def securityKeywords : List Str := [str ("auth"), str ("security"), str ("encryption")]

/-- Keyword group of the `database` domain category. -/
def databaseKeywords : List Str := [str ("migration"), str ("database"), str ("schema")]

/-- Keyword group of the `api` domain category. -/
def apiKeywords : List Str := [str ("graphql"), str ("federation"), str ("api")]

/-- The priority-ordered categorical bonus of analyze_domain_complexity:
only the first matching group applies. -/
def domainCategoryBonus (full_text : Str) : Int :=
  if financeKeywords.any (fun k => containsSub k full_text) then 5
  else if securityKeywords.any (fun k => containsSub k full_text) then 8
  else if databaseKeywords.any (fun k => containsSub k full_text) then 7
  else if apiKeywords.any (fun k => containsSub k full_text) then 5
  else 0

/-- complexity_scorer.analyze_domain_complexity, score component: +3 per
high-risk keyword present in `task_name + " " + task_description`
(lower-cased), plus the categorical bonus, capped at 25. -/
def analyze_domain_complexity (task_description task_name : Str) : Int :=
  let full_text := lowerStr (task_name ++ str (" ") ++ task_description)
  min (3 * ((HIGH_RISK_KEYWORDS.filter (fun k => containsSub k full_text)).length : Int)
        + domainCategoryBonus full_text) 25

/-- complexity_scorer.analyze_risk_factors, score component. -/
def analyze_risk_factors (affects_production breaking_change has_tests : Bool) : Int :=
  min ((if affects_production then 20 else 0) + (if breaking_change then 15 else 0)
        + (if !has_tests then 10 else 0)) 35

/-- The scored part of the dict returned by calculate_task_complexity:
`complexity_score`, the four `breakdown` entries, `model_recommendation`.
The prose fields (`reasoning`, `estimated_cost`) and the `details` dict are
presentation only and are omitted. -/
structure TaskComplexity where
  complexity_score : Int
  model_recommendation : Str
  file_complexity : Int
  code_complexity : Int
  domain_complexity : Int
  risk_factors : Int
deriving DecidableEq

/-- complexity_scorer.calculate_task_complexity.  `files_changed = []`
covers Python's `None` default and the empty list alike: both are falsy,
so `if files_changed:` skips the file analysis and leaves `file_score = 0`
(analyze_file_changes on `[]` would also yield 0). -/
def calculate_task_complexity (files_changed : List Str) (git_diff : Option Str)
    (lines_changed functions_added : Int) (task_description task_name : Str)
    (affects_production breaking_change has_tests : Bool) : TaskComplexity :=
  let file_score := if files_changed.isEmpty then 0 else analyze_file_changes files_changed
  let code_score := analyze_code_changes git_diff lines_changed functions_added
  let domain_score := analyze_domain_complexity task_description task_name
  let risk_score := analyze_risk_factors affects_production breaking_change has_tests
  let total_score := file_score + code_score + domain_score + risk_score
  let final_score := max 0 (min total_score 100)
  { complexity_score := final_score
    model_recommendation :=
      if final_score < 30 then str ("haiku-4.5")
      else if final_score < 60 then str ("haiku-with-sonnet-review")
      else str ("sonnet-4.5")
    file_complexity := file_score
    code_complexity := code_score
    domain_complexity := domain_score
    risk_factors := risk_score }

/-! ## model_selector.py -/

/-- The routing-relevant fields of ModelSelector's configuration dict
(_load_config): the two enable flags, the two thresholds and the override
keyword lists.  The cost_limits block is never read by select_model and is
omitted. -/
structure SelectorConfig where
  enabled : Bool
  auto_model_selection : Bool
  haiku_max : Int
  sonnet_min : Int
  always_sonnet : List Str
  always_haiku : List Str

/-- ModelSelector._load_config's default_config (no user config file). -/
def default_config : SelectorConfig :=
  { enabled := true
    auto_model_selection := true
    haiku_max := 30
    sonnet_min := 60
    always_sonnet :=
      [str ("payment"), str ("security"), str ("auth"), str ("migration"),
       str ("encryption"), str ("transaction")]
    always_haiku := [str ("documentation"), str ("tests"), str ("refactor-simple")] }

/-- The fields of the decision dict returned by select_model that the
claims observe: `model`, `selection_method`, and the optional
`complexity_score` (the key is absent in the `disabled` branch).  The prose
fields (`reason`, `cost_estimate`, `quality_notes`, `workflow`) are
presentation only and are omitted. -/
structure ModelDecision where
  model : Str
  selection_method : Str
  complexity_score : Option Int
deriving DecidableEq

/-- ModelSelector.check_overrides: scan the always_sonnet keywords, then
the always_haiku keywords, each matched case-insensitively as a substring
of `task_name + " " + task_description`; the first matching group decides
(the source returns from inside the loop). -/
def check_overrides (cfg : SelectorConfig) (task_name task_description : Str) :
    Option Str :=
  let full_text := lowerStr (task_name ++ str (" ") ++ task_description)
  if cfg.always_sonnet.any (fun k => containsSub (lowerStr k) full_text) then
    some (str ("sonnet-4.5"))
  else if cfg.always_haiku.any (fun k => containsSub (lowerStr k) full_text) then
    some (str ("haiku-4.5"))
  else none

/-- The tail of ModelSelector.select_model after the user-override check:
rule overrides, then threshold selection.  The `complexity_score : Option
Int` argument models the presence of the "complexity_score" key in the
analysis dict: `.get('complexity_score', 0)` is `getD 0`,
`.get('complexity_score', 50)` is `getD 50`. -/
def select_model_ruled (cfg : SelectorConfig) (complexity_score : Option Int)
    (task_name task_description : Str) : ModelDecision :=
  match check_overrides cfg task_name task_description with
  | some override_model =>
      { model := override_model
        selection_method := str ("rule_override")
        complexity_score := some (complexity_score.getD 0) }
  | none =>
      let score := complexity_score.getD 50
      if score ≤ cfg.haiku_max then
        { model := str ("haiku-4.5")
          selection_method := str ("complexity_based")
          complexity_score := some score }
      else if score < cfg.sonnet_min then
        { model := str ("haiku-with-sonnet-review")
          selection_method := str ("complexity_based")
          complexity_score := some score }
      else
        { model := str ("sonnet-4.5")
          selection_method := str ("complexity_based")
          complexity_score := some score }

/-- ModelSelector.select_model, with the source's branch order: the
disabled check (`not enabled or not auto_model_selection`), the user
override — Python's `if user_override:` is false both for `None` and for
the empty string — then rule overrides and thresholds. -/
def select_model (cfg : SelectorConfig) (complexity_score : Option Int)
    (task_name task_description : Str) (user_override : Option Str) :
    ModelDecision :=
  if !cfg.enabled || !cfg.auto_model_selection then
    { model := str ("sonnet-4.5")
      selection_method := str ("disabled")
      complexity_score := none }
  else
    match user_override with
    | some s =>
        if s.isEmpty then select_model_ruled cfg complexity_score task_name task_description
        else
          { model := s
            selection_method := str ("user_override")
            complexity_score := some (complexity_score.getD 0) }
    | none => select_model_ruled cfg complexity_score task_name task_description

/-! ## cost_tracker.py -/

/-- Per-1M-token rates of one pricing tier (a MODEL_COSTS entry). -/
structure ModelRates where
  input : ℚ
  output : ℚ

/-- MODEL_COSTS["sonnet-4.5"] (the claude-sonnet-4 alias is identical). -/
def sonnetRates : ModelRates := { input := 3, output := 15 }

/-- MODEL_COSTS["haiku-4.5"] (0.8 and 4.0 per 1M tokens). -/
def haikuRates : ModelRates := { input := 4/5, output := 4 }

/-- cost_tracker.calculate_cost: the model name is lower-cased; anything
containing "sonnet" is billed at sonnet rates, anything containing "haiku"
at haiku rates, and everything else defaults to the sonnet rates (the
source's "conservative estimate"). -/
def calculate_cost (model : Str) (tokens_input tokens_output : Int) : ℚ :=
  let model_lower := lowerStr model
  let costs :=
    if containsSub (str ("sonnet")) model_lower then sonnetRates
    else if containsSub (str ("haiku")) model_lower then haikuRates
    else sonnetRates
  (tokens_input : ℚ) / 1000000 * costs.input
    + (tokens_output : ℚ) / 1000000 * costs.output

/-- cost_tracker.AGENT_CATEGORIES, in source (dict-insertion) order. -/
def AGENT_CATEGORIES : List (Str × List Str) :=
  [(str ("backend-development"),
    [str ("backend-architect"), str ("graphql-architect"), str ("tdd-orchestrator"),
     str ("django-pro"), str ("fastapi-pro"), str ("python-pro")]),
   (str ("quality-testing"),
    [str ("code-reviewer"), str ("test-automator"), str ("tdd-orchestrator"),
     str ("debugger"), str ("performance-engineer")]),
   (str ("compounding-engineering"),
    [str ("architecture-strategist"), str ("best-practices-researcher"),
     str ("kieran-python-reviewer"), str ("kieran-typescript-reviewer"),
     str ("performance-oracle"), str ("security-sentinel")]),
   (str ("infrastructure"),
    [str ("deployment-engineer"), str ("terraform-specialist"), str ("cloud-architect"),
     str ("kubernetes-architect"), str ("devops-troubleshooter")]),
   (str ("debugging"),
    [str ("debugger"), str ("error-detective"), str ("devops-troubleshooter"),
     str ("dx-optimizer")]),
   (str ("documentation"),
    [str ("docs-architect"), str ("api-documenter"), str ("tutorial-engineer"),
     str ("mermaid-expert")])]

/-- Python `agent_name.split(":")`: the non-empty list of colon-separated
segments (`"".split(":") == [""]`). -/
def splitOnColon : Str → List Str
  | [] => [[]]
  | c :: rest =>
      if c = ':' then [] :: splitOnColon rest
      else
        match splitOnColon rest with
        | [] => [[c]]
        | g :: gs => (c :: g) :: gs

/-- Python `agent_name.split(":")[-1] if ":" in agent_name else agent_name` — the
short name used by get_agent_category's fallback. -/
def agentShortName (agent_name : Str) : Str :=
  if agent_name.contains ':' then (splitOnColon agent_name).getLastD agent_name
  else agent_name

/-- cost_tracker.get_agent_category: when the name contains ':' and the
segment before the first ':' is a key of AGENT_CATEGORIES, return that key;
otherwise look the short name up in the member lists, in table order;
otherwise "other". -/
def get_agent_category (agent_name : Str) : Str :=
  if agent_name.contains ':'
      && AGENT_CATEGORIES.any (fun p => p.1 == (splitOnColon agent_name).headD []) then
    (splitOnColon agent_name).headD []
  else
    match AGENT_CATEGORIES.find?
        (fun p => p.2.any (fun a => a == agentShortName agent_name)) with
    | some p => p.1
    | none => str ("other")

/-- The alert kinds of cost_tracker's budget alerts (the `type` field). -/
inductive AlertKind
  | budget_warning
  | budget_exceeded
deriving DecidableEq

/-- One entry of a monthly `alerts` list: the dedup key (`type`) and the
spend percentage its message and severity are rendered from.  The timestamp
and the formatted message string are presentation only and are omitted. -/
structure Alert where
  kind : AlertKind
  spend_pct : ℚ
deriving DecidableEq

/-- The claim-relevant fields of one monthly bucket: the running
`total_cost_usd` rollup and the `alerts` list.  The per-tier cost/token
counters and the by_agent/by_agent_category maps are parallel rollups the
claims never observe and are omitted. -/
structure MonthBucket where
  total_cost_usd : ℚ
  alerts : List Alert
deriving DecidableEq

/-- The claim-relevant fields of one daily bucket: the running
`total_cost_usd` rollup and the `invocations` entry log, each appended
entry reduced to its `cost_usd` field. -/
structure DayBucket where
  total_cost_usd : ℚ
  invocations : List ℚ
deriving DecidableEq

/-- The budget part of the document's `config` block. -/
structure BudgetConfig where
  monthly_budget_usd : ℚ
  alert_threshold_pct : ℚ
deriving DecidableEq

/-- A calendar month key ("%Y-%m"), abstracted to a number. -/
abbrev MonthKey := Nat

/-- A calendar date key ("%Y-%m-%d"): the month it belongs to plus the day
of month.  Both keys of one record call are rendered from the same
`datetime.now()`, so a call's date key always lies in its month key. -/
structure DateKey where
  month : MonthKey
  day : Nat
deriving DecidableEq

/-- The cost-tracking document, claim-relevant shape: config, the daily map
and the monthly map as insertion-ordered key/value lists (Python dicts
preserve insertion order).  metadata and statistics are derived bookkeeping
the claims never observe and are omitted. -/
structure CostTracking where
  config : BudgetConfig
  daily : List (DateKey × DayBucket)
  monthly : List (MonthKey × MonthBucket)
deriving DecidableEq

/-- cost_tracker._initialize_cost_tracking: budget 500 USD, alert threshold
80%, empty daily map, and the current month present with zeroed totals and
no alerts. -/
def _initialize_cost_tracking (current_month : MonthKey) : CostTracking :=
  { config := { monthly_budget_usd := 500, alert_threshold_pct := 80 }
    daily := []
    monthly := [(current_month, { total_cost_usd := 0, alerts := [] })] }

/-- cost_tracker.load_cost_tracking: the result of reading and parsing the
backing file is passed in as `none` when the file is missing, unreadable or
holds unparseable content — in each of those cases the source's `try/except`
(or the existence check) falls back to the freshly initialized structure.
The caught exception is printed, never re-raised, so the function is
total. -/
def load_cost_tracking (parsed : Option CostTracking) (current_month : MonthKey) :
    CostTracking :=
  match parsed with
  | some data => data
  | none => _initialize_cost_tracking current_month

/-- The fused "initialize the month bucket if absent, then add the cost to
its total" steps of track_agent_invocation, as one traversal of the
insertion-ordered monthly map: the bucket with the key receives the cost; a
missing key appends a fresh zeroed bucket (empty alerts) holding it. -/
def addMonthlyCost :
    List (MonthKey × MonthBucket) → MonthKey → ℚ → List (MonthKey × MonthBucket)
  | [], m, cost => [(m, { total_cost_usd := cost, alerts := [] })]
  | (k, b) :: rest, m, cost =>
      if k = m then (k, { b with total_cost_usd := b.total_cost_usd + cost }) :: rest
      else (k, b) :: addMonthlyCost rest m cost

/-- Likewise for the daily map: add the cost to the day's running total and
append the invocation entry (its cost_usd) to the day's entry log. -/
def addDailyCost :
    List (DateKey × DayBucket) → DateKey → ℚ → List (DateKey × DayBucket)
  | [], d, cost => [(d, { total_cost_usd := cost, invocations := [cost] })]
  | (k, b) :: rest, d, cost =>
      if k = d then
        (k, { total_cost_usd := b.total_cost_usd + cost
              invocations := b.invocations ++ [cost] }) :: rest
      else (k, b) :: addDailyCost rest d cost

/-- The budget-alert block at the end of track_agent_invocation, acting on
the current month's (already cost-updated) bucket: `spend_pct = total /
budget * 100`; at or above the threshold an alert is built (warning below
100%, exceeded at or above 100%) and appended only when no alert of the
same type already exists for the month. -/
def applyBudgetAlert (config : BudgetConfig) (b : MonthBucket) : MonthBucket :=
  let spend_pct := b.total_cost_usd / config.monthly_budget_usd * 100
  if spend_pct ≥ config.alert_threshold_pct then
    let kind :=
      if spend_pct < 100 then AlertKind.budget_warning else AlertKind.budget_exceeded
    if (b.alerts.filter (fun a => a.kind == kind)).isEmpty then
      { b with alerts := b.alerts ++ [{ kind := kind, spend_pct := spend_pct }] }
    else b
  else b

/-- Run the budget-alert block on the bucket of the current month. -/
def applyAlertAt (config : BudgetConfig) :
    List (MonthKey × MonthBucket) → MonthKey → List (MonthKey × MonthBucket)
  | [], _ => []
  | (k, b) :: rest, m =>
      if k = m then (k, applyBudgetAlert config b) :: rest
      else (k, b) :: applyAlertAt config rest m

/-- cost_tracker.track_agent_invocation, restricted to the state the claims
observe: the monthly and daily cost rollups, the daily entry log and the
monthly alerts.  `date` carries the call's "%Y-%m-%d"/"%Y-%m" key pair and
`cost` the result of calculate_cost.  The per-tier, per-agent and
per-category counters, the statistics and the metadata updates touch
disjoint state and are omitted; the trailing save is the persistence
boundary. -/
def track_agent_invocation (data : CostTracking) (date : DateKey) (cost : ℚ) :
    CostTracking :=
  { data with
    monthly := applyAlertAt data.config (addMonthlyCost data.monthly date.month cost)
      date.month
    daily := addDailyCost data.daily date cost }

/-- First-match lookup in the monthly map (Python dict access). -/
def lookupMonth : List (MonthKey × MonthBucket) → MonthKey → Option MonthBucket
  | [], _ => none
  | (k, b) :: rest, m => if k = m then some b else lookupMonth rest m

/-- A month's rollup total (0 when the month is absent). -/
def monthlyTotal (data : CostTracking) (m : MonthKey) : ℚ :=
  match lookupMonth data.monthly m with
  | some b => b.total_cost_usd
  | none => 0

/-- How many alerts of one kind a month's alerts list holds (0 when the
month is absent). -/
def monthAlertCount (data : CostTracking) (m : MonthKey) (kind : AlertKind) : Nat :=
  match lookupMonth data.monthly m with
  | some b => b.alerts.countP (fun a => a.kind == kind)
  | none => 0

/-- Sum of the daily rollup totals over the days of one month. -/
def sumDailyTotals (daily : List (DateKey × DayBucket)) (m : MonthKey) : ℚ :=
  match daily with
  | [] => 0
  | (k, b) :: rest =>
      (if k.month = m then b.total_cost_usd else 0) + sumDailyTotals rest m

/-- Sum of the logged invocation costs over the days of one month. -/
def sumDailyEntries (daily : List (DateKey × DayBucket)) (m : MonthKey) : ℚ :=
  match daily with
  | [] => 0
  | (k, b) :: rest =>
      (if k.month = m then b.invocations.sum else 0) + sumDailyEntries rest m

/-- Replay a sequence of record calls (date key and cost of each) from the
freshly initialized store. -/
def replayTracking (current_month : MonthKey) (calls : List (DateKey × ℚ)) :
    CostTracking :=
  calls.foldl (fun data p => track_agent_invocation data p.1 p.2)
    (_initialize_cost_tracking current_month)

/-- The rollup-consistency invariant of claim C3: for every month, the
monthly rollup equals the sum of the daily rollups of its days, which
equals the sum of the costs of the invocation entries logged in them. -/
def RollupInv (data : CostTracking) : Prop :=
  ∀ m, monthlyTotal data m = sumDailyTotals data.daily m
     ∧ sumDailyTotals data.daily m = sumDailyEntries data.daily m

/-! ## PerformanceTracker history (spec-modelled) -/

/-- Modelled from the spec: the PerformanceTracker implementation
(agent_metrics.py, imported by dashboard.py and test_phase2_integration.py)
is not among the sources.  Spec §3: an AgentProfile keeps "a bounded
invocation history (capacity 100, oldest evicted first — a ring buffer, not
an unbounded log)". -/
def HISTORY_CAPACITY : Nat := 100

/-- Modelled from the spec: the history-append step of
PerformanceTracker.recordInvocation — spec §4.4 "appends to the bounded
history (evict oldest beyond 100)". -/
def appendBoundedHistory {α : Type} (history : List α) (entry : α) : List α :=
  let h2 := history ++ [entry]
  if h2.length > HISTORY_CAPACITY then h2.drop (h2.length - HISTORY_CAPACITY) else h2

/-! ## Theorems about the complexity scorer (C4, C5, C8) -/

/-- C4: Total-score clamp — for every input to calculate_task_complexity the
returned complexity_score lies in [0,100], even when the raw sum of the four
sub-scores would exceed 100 or be negative. -/
theorem c4_complexity_score_clamped (files_changed : List Str) (git_diff : Option Str)
    (lines_changed functions_added : Int) (task_description task_name : Str)
    (affects_production breaking_change has_tests : Bool) :
    0 ≤ (calculate_task_complexity files_changed git_diff lines_changed functions_added
          task_description task_name affects_production breaking_change
          has_tests).complexity_score ∧
      (calculate_task_complexity files_changed git_diff lines_changed functions_added
          task_description task_name affects_production breaking_change
          has_tests).complexity_score ≤ 100 := by
  have h : (calculate_task_complexity files_changed git_diff lines_changed functions_added
        task_description task_name affects_production breaking_change
        has_tests).complexity_score
      = max 0 (min ((if files_changed.isEmpty then 0 else analyze_file_changes files_changed)
          + analyze_code_changes git_diff lines_changed functions_added
          + analyze_domain_complexity task_description task_name
          + analyze_risk_factors affects_production breaking_change has_tests) 100) := rfl
  rw [h]
  omega

/-- C5: the claim "the file sub-score is never negative" is contradicted by
the code: for the single changed file "README.md" — which matches no
high-risk pattern and gets the −2 documentation deduction —
analyze_file_changes returns −2, while its own docstring promises a score in
0–40.  The upper cap `min(score, 40)` has no lower counterpart. -/
theorem c5_file_subscore_negative_on_readme :
    analyze_file_changes [str ("README.md")] = -2 := by decide

/-- C8 counterexample: two inputs that differ only in the lines-changed
count (50 vs 60, all other fields equal) produce the identical code
sub-score 0 in the breakdown, refuting strict sensitivity. -/
theorem c8_sensitivity_counterexample :
    (calculate_task_complexity [] none 50 0 (str ("")) (str ("")) false false
        true).code_complexity
      = (calculate_task_complexity [] none 60 0 (str ("")) (str ("")) false false
        true).code_complexity
    ∧ (50 : Int) ≠ 60 := by decide

/-- C8 (amended): the code sub-score is sensitive to lines-changed only
across tier boundaries — with no other code-change contribution
(functions_added = 0, no diff) the sub-scores of two inputs differ exactly
when the two counts fall into different tiers of the stepped scale
(>1000, >500, >200, >100); within a tier the sub-score is unchanged. -/
theorem c8_code_subscore_sensitivity_iff (l1 l2 : Int) :
    (analyze_code_changes none l1 0 ≠ analyze_code_changes none l2 0)
      ↔ (linesTier l1 ≠ linesTier l2) := by
  have hfz : functionsTier 0 = 0 := by decide
  have hsz : sqlPatternScore none = 0 := rfl
  have h : ∀ l : Int, analyze_code_changes none l 0 = linesTier l := by
    intro l
    have hb : linesTier l ≤ 30 := by unfold linesTier; split_ifs <;> omega
    simp only [analyze_code_changes, hfz, hsz, add_zero]
    omega
  rw [h l1, h l2]

/-! ## Theorems about the model selector (C2) -/

/-- C2 counterexample: with the default configuration (routing enabled), a
provided override of `""` is ignored — Python's `if user_override:` is
false for the empty string — and a task name matching the always_sonnet
keyword "payment" with complexity score 95 yields a rule_override decision
for "sonnet-4.5" instead of honoring the provided override verbatim. -/
theorem c2_empty_override_counterexample :
    select_model default_config (some 95) (str ("payment")) (str ("")) (some (str ("")))
      = { model := str ("sonnet-4.5")
          selection_method := str ("rule_override")
          complexity_score := some 95 } := by decide

/-- C2 (amended): whenever routing is enabled (both config flags) and a
non-empty user_override is provided, select_model returns that override
verbatim with selection_method "user_override", regardless of the task
text and of the complexity score. -/
theorem c2_user_override_wins (cfg : SelectorConfig) (complexity_score : Option Int)
    (task_name task_description : Str) (s : Str)
    (hen : cfg.enabled = true) (hauto : cfg.auto_model_selection = true)
    (hne : s ≠ []) :
    select_model cfg complexity_score task_name task_description (some s)
      = { model := s
          selection_method := str ("user_override")
          complexity_score := some (complexity_score.getD 0) } := by
  have hse : s.isEmpty = false := by
    cases s with
    | nil => exact absurd rfl hne
    | cons a t => rfl
  simp [select_model, hen, hauto, hse]

/-- C2 witness: the amended theorem at a concrete input — override
"low-cost", task text matching an always-high-quality keyword, score 95. -/
theorem c2_user_override_wins_witness :
    default_config.enabled = true ∧ default_config.auto_model_selection = true
      ∧ (str ("low-cost")) ≠ []
      ∧ select_model default_config (some 95) (str ("payment"))
          (str ("implement payment encryption")) (some (str ("low-cost")))
        = { model := str ("low-cost")
            selection_method := str ("user_override")
            complexity_score := some 95 } :=
  ⟨rfl, rfl, by decide,
    c2_user_override_wins default_config (some 95) (str ("payment"))
      (str ("implement payment encryption")) (str ("low-cost")) rfl rfl (by decide)⟩

/-! ## Theorems about agent categories (C6) -/

/-- C6 counterexample: "foo:debugger" has the unknown namespace prefix
"foo", yet get_agent_category returns "quality-testing" — the fallback
matches the short name "debugger" in the member lists — not "other". -/
theorem c6_unknown_namespace_counterexample :
    AGENT_CATEGORIES.any
        (fun p => p.1 == (splitOnColon (str ("foo:debugger"))).headD []) = false
    ∧ get_agent_category (str ("foo:debugger")) = str ("quality-testing")
    ∧ get_agent_category (str ("foo:debugger")) ≠ str ("other") := by decide

/-- C6 (amended): get_agent_category returns "other" exactly when both
lookups miss — when the segment before the first ':' is not a key of the
category table AND the short name (the segment after the last ':', or the
whole identifier when it has no ':') is not a member of any category's
agent list. -/
theorem c6_unknown_category_other (agent_name : Str)
    (hkey : AGENT_CATEGORIES.any
        (fun p => p.1 == (splitOnColon agent_name).headD []) = false)
    (hshort : AGENT_CATEGORIES.any
        (fun p => p.2.any (fun a => a == agentShortName agent_name)) = false) :
    get_agent_category agent_name = str ("other") := by
  have hfind : AGENT_CATEGORIES.find?
      (fun p => p.2.any (fun a => a == agentShortName agent_name)) = none := by
    rw [List.find?_eq_none]
    intro x hx
    have hx2 := (List.any_eq_false.mp hshort) x hx
    simp [hx2]
  unfold get_agent_category
  rw [hkey, hfind]
  simp

/-- C6 witness: the amended theorem at "foo:bar" — unknown prefix, unknown
short name, category "other". -/
theorem c6_unknown_category_other_witness :
    AGENT_CATEGORIES.any
        (fun p => p.1 == (splitOnColon (str ("foo:bar"))).headD []) = false
    ∧ AGENT_CATEGORIES.any
        (fun p => p.2.any (fun a => a == agentShortName (str ("foo:bar")))) = false
    ∧ get_agent_category (str ("foo:bar")) = str ("other") :=
  ⟨by decide, by decide, c6_unknown_category_other (str ("foo:bar")) (by decide) (by decide)⟩

/-! ## Theorems about cost calculation (C10) -/

/-- C10: unknown-tier pricing defaults high — every model name containing
neither "sonnet" nor "haiku" (case-insensitive) is billed at the sonnet-4.5
rates: exactly (tokens_input/1e6)*3.0 + (tokens_output/1e6)*15.0, rather
than being rejected. -/
theorem c10_unknown_model_billed_as_sonnet (model : Str)
    (tokens_input tokens_output : Int)
    (hs : containsSub (str ("sonnet")) (lowerStr model) = false)
    (hh : containsSub (str ("haiku")) (lowerStr model) = false) :
    calculate_cost model tokens_input tokens_output
      = (tokens_input : ℚ) / 1000000 * 3 + (tokens_output : ℚ) / 1000000 * 15 := by
  simp [calculate_cost, hs, hh, sonnetRates]

/-- C10 witness: "gpt-4o" names neither tier; 1M input and 2M output tokens
cost 3 + 30 dollars at the sonnet rates. -/
theorem c10_unknown_model_billed_as_sonnet_witness :
    containsSub (str ("sonnet")) (lowerStr (str ("gpt-4o"))) = false
    ∧ containsSub (str ("haiku")) (lowerStr (str ("gpt-4o"))) = false
    ∧ calculate_cost (str ("gpt-4o")) 1000000 2000000
        = (1000000 : ℚ) / 1000000 * 3 + (2000000 : ℚ) / 1000000 * 15 :=
  ⟨by decide, by decide,
    c10_unknown_model_billed_as_sonnet (str ("gpt-4o")) 1000000 2000000
      (by decide) (by decide)⟩

/-! ## Helper lemmas about the cost-tracking store -/

/-- addMonthlyCost updates the looked-up bucket: an existing bucket gains
the cost, a missing one is created holding it. -/
theorem lookupMonth_addMonthlyCost (l : List (MonthKey × MonthBucket))
    (m : MonthKey) (cost : ℚ) :
    lookupMonth (addMonthlyCost l m cost) m
      = some (match lookupMonth l m with
          | some b => { b with total_cost_usd := b.total_cost_usd + cost }
          | none => { total_cost_usd := cost, alerts := [] }) := by
  induction l with
  | nil => simp [addMonthlyCost, lookupMonth]
  | cons p rest ih =>
      obtain ⟨k, b⟩ := p
      by_cases hk : k = m
      · subst hk
        simp [addMonthlyCost, lookupMonth]
      · simp [addMonthlyCost, lookupMonth, hk, ih]

/-- addMonthlyCost leaves other months' buckets alone. -/
theorem lookupMonth_addMonthlyCost_ne (l : List (MonthKey × MonthBucket))
    (m m' : MonthKey) (cost : ℚ) (hne : m' ≠ m) :
    lookupMonth (addMonthlyCost l m cost) m' = lookupMonth l m' := by
  induction l with
  | nil => simp [addMonthlyCost, lookupMonth, Ne.symm hne]
  | cons p rest ih =>
      obtain ⟨k, b⟩ := p
      by_cases hk : k = m
      · subst hk
        simp [addMonthlyCost, lookupMonth, Ne.symm hne]
      · simp [addMonthlyCost, lookupMonth, hk, ih]

/-- applyAlertAt acts on the targeted month's bucket through
applyBudgetAlert. -/
theorem lookupMonth_applyAlertAt_eq (cfg : BudgetConfig)
    (l : List (MonthKey × MonthBucket)) (m : MonthKey) :
    lookupMonth (applyAlertAt cfg l m) m
      = (lookupMonth l m).map (applyBudgetAlert cfg) := by
  induction l with
  | nil => simp [applyAlertAt, lookupMonth]
  | cons p rest ih =>
      obtain ⟨k, b⟩ := p
      by_cases hk : k = m
      · subst hk
        simp [applyAlertAt, lookupMonth]
      · simp [applyAlertAt, lookupMonth, hk, ih]

/-- applyAlertAt leaves other months' buckets alone. -/
theorem lookupMonth_applyAlertAt_ne (cfg : BudgetConfig)
    (l : List (MonthKey × MonthBucket)) (m m' : MonthKey) (hne : m' ≠ m) :
    lookupMonth (applyAlertAt cfg l m) m' = lookupMonth l m' := by
  induction l with
  | nil => simp [applyAlertAt, lookupMonth]
  | cons p rest ih =>
      obtain ⟨k, b⟩ := p
      by_cases hk : k = m
      · subst hk
        simp [applyAlertAt, lookupMonth, Ne.symm hne]
      · simp [applyAlertAt, lookupMonth, hk, ih]

/-- The alert check never changes a bucket's running total. -/
theorem applyBudgetAlert_total (cfg : BudgetConfig) (b : MonthBucket) :
    (applyBudgetAlert cfg b).total_cost_usd = b.total_cost_usd := by
  simp only [applyBudgetAlert]
  split_ifs <;> rfl

/-- Appending one alert of a kind that is not present yet keeps every
kind's count at most 1. -/
theorem countP_le_one_append (alerts : List Alert) (kd : AlertKind) (pct : ℚ)
    (h : ∀ kind, alerts.countP (fun a => a.kind == kind) ≤ 1)
    (hE : (alerts.filter (fun a => a.kind == kd)).isEmpty = true) (k : AlertKind) :
    (alerts ++ [Alert.mk kd pct]).countP (fun a => a.kind == k) ≤ 1 := by
  have hnil : alerts.filter (fun a => a.kind == kd) = [] := by
    cases hfe : alerts.filter (fun a => a.kind == kd) with
    | nil => rfl
    | cons x xs => rw [hfe] at hE; simp [List.isEmpty] at hE
  rw [List.countP_append]
  by_cases hk : k = kd
  · subst hk
    have h0 : alerts.countP (fun a => a.kind == k) = 0 := by
      rw [List.countP_eq_length_filter, hnil]
      rfl
    rw [h0]
    simp [List.countP_cons]
  · have hbe : ((Alert.mk kd pct).kind == k) = false := by
      simp only [beq_eq_false_iff_ne, ne_eq]
      exact fun hco => hk hco.symm
    have hone : List.countP (fun a => a.kind == k) [Alert.mk kd pct] = 0 := by
      simp [List.countP_cons, hbe]
    rw [hone]
    simpa using h k

/-- The alert check keeps every kind's count at most 1. -/
theorem applyBudgetAlert_countP_le (cfg : BudgetConfig) (b : MonthBucket)
    (h : ∀ kind, b.alerts.countP (fun a => a.kind == kind) ≤ 1) (k : AlertKind) :
    (applyBudgetAlert cfg b).alerts.countP (fun a => a.kind == k) ≤ 1 := by
  have hgen : ∀ (kd : AlertKind) (pct : ℚ),
      (if (b.alerts.filter (fun a => a.kind == kd)).isEmpty
       then { b with alerts := b.alerts ++ [Alert.mk kd pct] }
       else b).alerts.countP (fun a => a.kind == k) ≤ 1 := by
    intro kd pct
    by_cases hE : (b.alerts.filter (fun a => a.kind == kd)).isEmpty = true
    · rw [if_pos hE]
      exact countP_le_one_append b.alerts kd pct h hE k
    · rw [if_neg hE]
      exact h k
  simp only [applyBudgetAlert]
  by_cases h1 : b.total_cost_usd / cfg.monthly_budget_usd * 100
      ≥ cfg.alert_threshold_pct
  · rw [if_pos h1]
    exact hgen _ _
  · rw [if_neg h1]
    exact h k

/-- One record call keeps every month's per-kind alert count at most 1. -/
theorem monthAlertCount_track_le (data : CostTracking) (date : DateKey) (cost : ℚ)
    (h : ∀ m kind, monthAlertCount data m kind ≤ 1)
    (m : MonthKey) (kind : AlertKind) :
    monthAlertCount (track_agent_invocation data date cost) m kind ≤ 1 := by
  have hmonthly : (track_agent_invocation data date cost).monthly
      = applyAlertAt data.config (addMonthlyCost data.monthly date.month cost)
          date.month := rfl
  unfold monthAlertCount
  rw [hmonthly]
  by_cases hm : m = date.month
  · subst hm
    rw [lookupMonth_applyAlertAt_eq, lookupMonth_addMonthlyCost]
    cases hl : lookupMonth data.monthly date.month with
    | none =>
        exact applyBudgetAlert_countP_le _ _ (fun kd => by simp) kind
    | some b =>
        refine applyBudgetAlert_countP_le _ _ (fun kd => ?_) kind
        have hb := h date.month kd
        unfold monthAlertCount at hb
        rw [hl] at hb
        exact hb
  · rw [lookupMonth_applyAlertAt_ne _ _ _ _ hm, lookupMonth_addMonthlyCost_ne _ _ _ _ hm]
    exact h m kind

/-- One record call adds the cost to exactly the call's month rollup. -/
theorem monthlyTotal_track (data : CostTracking) (date : DateKey) (cost : ℚ)
    (m : MonthKey) :
    monthlyTotal (track_agent_invocation data date cost) m
      = monthlyTotal data m + (if date.month = m then cost else 0) := by
  have hmonthly : (track_agent_invocation data date cost).monthly
      = applyAlertAt data.config (addMonthlyCost data.monthly date.month cost)
          date.month := rfl
  unfold monthlyTotal
  rw [hmonthly]
  by_cases hm : m = date.month
  · subst hm
    rw [lookupMonth_applyAlertAt_eq, lookupMonth_addMonthlyCost]
    cases hl : lookupMonth data.monthly date.month with
    | none => simp [applyBudgetAlert_total]
    | some b => simp [applyBudgetAlert_total]
  · rw [lookupMonth_applyAlertAt_ne _ _ _ _ hm, lookupMonth_addMonthlyCost_ne _ _ _ _ hm]
    simp [Ne.symm hm]

/-- One record call adds the cost to exactly the call's month in the sum of
daily rollup totals. -/
theorem sumDailyTotals_addDailyCost (l : List (DateKey × DayBucket)) (d : DateKey)
    (cost : ℚ) (m : MonthKey) :
    sumDailyTotals (addDailyCost l d cost) m
      = sumDailyTotals l m + (if d.month = m then cost else 0) := by
  induction l with
  | nil => simp [addDailyCost, sumDailyTotals]
  | cons p rest ih =>
      obtain ⟨k, b⟩ := p
      by_cases hk : k = d
      · subst hk
        simp only [addDailyCost, if_pos rfl, sumDailyTotals]
        by_cases hm2 : k.month = m
        · simp [hm2]; ring
        · simp [hm2]
      · simp only [addDailyCost, if_neg hk, sumDailyTotals]
        rw [ih]
        ring

/-- One record call adds the cost to exactly the call's month in the sum of
logged entry costs. -/
theorem sumDailyEntries_addDailyCost (l : List (DateKey × DayBucket)) (d : DateKey)
    (cost : ℚ) (m : MonthKey) :
    sumDailyEntries (addDailyCost l d cost) m
      = sumDailyEntries l m + (if d.month = m then cost else 0) := by
  induction l with
  | nil => simp [addDailyCost, sumDailyEntries]
  | cons p rest ih =>
      obtain ⟨k, b⟩ := p
      by_cases hk : k = d
      · subst hk
        simp only [addDailyCost, if_pos rfl, sumDailyEntries]
        by_cases hm2 : k.month = m
        · simp [hm2]; ring
        · simp [hm2]
      · simp only [addDailyCost, if_neg hk, sumDailyEntries]
        rw [ih]
        ring

/-- The rollup-consistency invariant is preserved by every record call. -/
theorem rollupInv_track (data : CostTracking) (date : DateKey) (cost : ℚ)
    (h : RollupInv data) : RollupInv (track_agent_invocation data date cost) := by
  intro m
  have hd : (track_agent_invocation data date cost).daily
      = addDailyCost data.daily date cost := rfl
  constructor
  · rw [hd, monthlyTotal_track, sumDailyTotals_addDailyCost, (h m).1]
  · rw [hd, sumDailyTotals_addDailyCost, sumDailyEntries_addDailyCost, (h m).2]

/-- The rollup-consistency invariant holds for the initialized store. -/
theorem rollupInv_init (current_month : MonthKey) :
    RollupInv (_initialize_cost_tracking current_month) := by
  intro m
  constructor
  · unfold monthlyTotal _initialize_cost_tracking sumDailyTotals
    by_cases hm : current_month = m <;> simp [hm, lookupMonth]
  · rfl

/-! ## Theorems about the cost-tracking store (C1, C3, C7) -/

/-- C1: Budget alert dedup — replaying any sequence of record calls from
the initialized store leaves every month's alerts list with at most one
alert of each kind (warning, exceeded): once a kind exists for a month,
further calls never append another of that kind. -/
theorem c1_budget_alert_dedup (current_month : MonthKey)
    (calls : List (DateKey × ℚ)) (m : MonthKey) (kind : AlertKind) :
    monthAlertCount (replayTracking current_month calls) m kind ≤ 1 := by
  have hfold : ∀ (cs : List (DateKey × ℚ)) (data : CostTracking),
      (∀ m' kind', monthAlertCount data m' kind' ≤ 1) →
      ∀ m' kind',
        monthAlertCount (cs.foldl (fun d p => track_agent_invocation d p.1 p.2) data)
          m' kind' ≤ 1 := by
    intro cs
    induction cs with
    | nil => intro data hdata; exact hdata
    | cons p rest ih =>
        intro data hdata
        exact ih _ (fun m'' kind'' => monthAlertCount_track_le data p.1 p.2 hdata m'' kind'')
  refine hfold calls _ ?_ m kind
  intro m' kind'
  unfold monthAlertCount _initialize_cost_tracking
  by_cases hm : current_month = m'
  · simp [lookupMonth, hm]
  · simp [lookupMonth, hm]

/-- C3: Rollup consistency — starting from the initialized empty store,
after any sequence of record calls, every month's monthly rollup total
equals the sum of the daily rollup totals of its days, which equals the sum
of the costs of the invocation entries appended during that month. -/
theorem c3_rollup_consistency (current_month : MonthKey)
    (calls : List (DateKey × ℚ)) (m : MonthKey) :
    monthlyTotal (replayTracking current_month calls) m
        = sumDailyTotals (replayTracking current_month calls).daily m
      ∧ sumDailyTotals (replayTracking current_month calls).daily m
        = sumDailyEntries (replayTracking current_month calls).daily m := by
  have hfold : ∀ (cs : List (DateKey × ℚ)) (data : CostTracking), RollupInv data →
      RollupInv (cs.foldl (fun d p => track_agent_invocation d p.1 p.2) data) := by
    intro cs
    induction cs with
    | nil => intro data hdata; exact hdata
    | cons p rest ih => intro data hdata; exact ih _ (rollupInv_track data p.1 p.2 hdata)
  exact hfold calls _ (rollupInv_init current_month) m

/-- C7: Corrupt-store recovery — when the backing store is unreadable or
unparseable (`parsed = none`), load_cost_tracking returns exactly the
freshly initialized structure: zeroed rollups with the current month
present and an empty daily map; and a subsequent record call proceeds
normally, leaving the month total at that call's cost. -/
theorem c7_corrupt_store_recovery (current_month : MonthKey) (day : Nat) (cost : ℚ) :
    load_cost_tracking none current_month = _initialize_cost_tracking current_month
    ∧ lookupMonth (load_cost_tracking none current_month).monthly current_month
        = some { total_cost_usd := 0, alerts := [] }
    ∧ (load_cost_tracking none current_month).daily = []
    ∧ monthlyTotal (track_agent_invocation (load_cost_tracking none current_month)
          { month := current_month, day := day } cost) current_month = cost := by
  refine ⟨rfl, ?_, rfl, ?_⟩
  · simp [load_cost_tracking, _initialize_cost_tracking, lookupMonth]
  · rw [monthlyTotal_track]
    simp [load_cost_tracking, monthlyTotal, _initialize_cost_tracking, lookupMonth]

/-! ## Theorems about the performance-tracker history (C9) -/

/-- The bounded-history append always equals "append, then drop down to the
capacity" (the drop count is 0 while under capacity). -/
theorem appendBoundedHistory_eq_drop {α : Type} (h : List α) (e : α) :
    appendBoundedHistory h e
      = (h ++ [e]).drop ((h.length + 1) - HISTORY_CAPACITY) := by
  simp only [appendBoundedHistory]
  by_cases hc : (h ++ [e]).length > HISTORY_CAPACITY
  · rw [if_pos hc]
    congr 1
    simp
  · rw [if_neg hc]
    simp only [List.length_append, List.length_cons, List.length_nil] at hc
    have h0 : h.length + 1 - HISTORY_CAPACITY = 0 := by omega
    rw [h0, List.drop_zero]

/-- Folding the bounded-history append keeps exactly the last
HISTORY_CAPACITY entries of the full append log. -/
theorem foldl_appendBoundedHistory {α : Type} (es : List α) :
    ∀ h : List α, h.length ≤ HISTORY_CAPACITY →
      es.foldl appendBoundedHistory h
        = (h ++ es).drop (h.length + es.length - HISTORY_CAPACITY) := by
  induction es with
  | nil =>
      intro h hle
      simp [Nat.sub_eq_zero_of_le hle]
  | cons e rest ih =>
      intro h hle
      rw [List.foldl_cons, appendBoundedHistory_eq_drop]
      by_cases hc : h.length + 1 ≤ HISTORY_CAPACITY
      · rw [Nat.sub_eq_zero_of_le hc, List.drop_zero]
        rw [ih (h ++ [e]) (by simpa using hc)]
        rw [List.append_assoc, List.singleton_append]
        congr 1
        simp
        omega
      · have h100 : h.length = HISTORY_CAPACITY := by omega
        have hk : h.length + 1 - HISTORY_CAPACITY = 1 := by omega
        have hone : 1 ≤ (h ++ [e]).length := by simp
        have hlen' : ((h ++ [e]).drop 1).length ≤ HISTORY_CAPACITY := by
          simp [h100]
        rw [hk, ih ((h ++ [e]).drop 1) hlen']
        rw [← List.drop_append_of_le_length hone, List.drop_drop]
        rw [List.append_assoc, List.singleton_append]
        congr 1
        simp [h100]
        omega

/-- C9: Ring-buffer cap on agent history (spec-modelled) — after recording
150 invocations into an initially empty bounded history, exactly 100
entries remain and they are the final 100 of the input sequence: the 50
oldest were evicted in FIFO order. -/
theorem c9_ring_buffer_cap (es : List Nat) (hlen : es.length = 150) :
    (es.foldl appendBoundedHistory []).length = 100
      ∧ es.foldl appendBoundedHistory [] = es.drop 50 := by
  have h := foldl_appendBoundedHistory es ([] : List Nat) (by simp [HISTORY_CAPACITY])
  simp only [List.nil_append, List.length_nil, Nat.zero_add] at h
  rw [hlen] at h
  have h50 : (150 : Nat) - HISTORY_CAPACITY = 50 := by simp [HISTORY_CAPACITY]
  rw [h50] at h
  refine ⟨?_, h⟩
  rw [h]
  simp [hlen]

/-- C9 witness: the theorem at the concrete sequence 0,…,149. -/
theorem c9_ring_buffer_cap_witness :
    (List.range 150).length = 150
      ∧ ((List.range 150).foldl appendBoundedHistory []).length = 100
      ∧ (List.range 150).foldl appendBoundedHistory []
          = (List.range 150).drop 50 :=
  ⟨by simp, (c9_ring_buffer_cap (List.range 150) (by simp)).1,
    (c9_ring_buffer_cap (List.range 150) (by simp)).2⟩
